import Mathlib

/-!
# waylib: output viewport and input device

A shallow embedding of `src/server/qtquick/woutputviewport.cpp` and
`src/server/kernel/winputdevice.cpp`.

* Pointers are `Option Nat`: `none` is `nullptr`, `some a` the object at address `a`.
* A stored `qreal` field and a `float` argument are kept by their value, a
  rational. The `qreal` a division returns is an IEEE-754 binary64 value
  (`qreal`): the quotient rounded to nearest, ties to even, with infinities and
  NaN.
* Calls made on collaborators (the buffer renderer, the owning render window, the
  output, the base item, the logging channel) and emitted signals are recorded, in
  order, as a list of `Call`.
* A call that aborts the process (a failed `Q_ASSERT`, a call through `nullptr`,
  `qFatal`) returns `Except.error`; what it did before aborting is not reported.
* `Q_ASSERT` is checked unless the build defines `QT_NO_DEBUG`; functions that
  assert take that choice as the parameter `qtNoDebug`.
-/

namespace Waylib

/-! ## Input device -/

/-- The enumeration `WInputDevice::Type`. -/
inductive InputType
  | Unknow
  | Keyboard
  | Pointer
  | Touch
  | Tablet
  | TabletPad
  | Switch
  deriving DecidableEq

/-- The values of the six `wlr_input_device_type` enumerators the switch of
`WInputDevice::type` names. They are declared by wlroots, outside the repository,
and are a parameter of the model. -/
structure WlrInputDeviceType where
  WLR_INPUT_DEVICE_KEYBOARD : Int
  WLR_INPUT_DEVICE_POINTER : Int
  WLR_INPUT_DEVICE_TOUCH : Int
  WLR_INPUT_DEVICE_TABLET_TOOL : Int
  WLR_INPUT_DEVICE_TABLET_PAD : Int
  WLR_INPUT_DEVICE_SWITCH : Int
  deriving DecidableEq

/-- The enumerator values in the order of the case labels. -/
def WlrInputDeviceType.labels (k : WlrInputDeviceType) : List Int :=
  [k.WLR_INPUT_DEVICE_KEYBOARD, k.WLR_INPUT_DEVICE_POINTER, k.WLR_INPUT_DEVICE_TOUCH,
   k.WLR_INPUT_DEVICE_TABLET_TOOL, k.WLR_INPUT_DEVICE_TABLET_PAD, k.WLR_INPUT_DEVICE_SWITCH]

/-- The numbering wlroots gives the enumerators (0 to 5, in declaration order). -/
def wlroots : WlrInputDeviceType :=
  { WLR_INPUT_DEVICE_KEYBOARD := 0
    WLR_INPUT_DEVICE_POINTER := 1
    WLR_INPUT_DEVICE_TOUCH := 2
    WLR_INPUT_DEVICE_TABLET_TOOL := 3
    WLR_INPUT_DEVICE_TABLET_PAD := 4
    WLR_INPUT_DEVICE_SWITCH := 5 }

/-- One record on the logging channel of the input device. -/
inductive DeviceLog
  /-- The record of `qWarning("Unknow input device type %i\n", type)`. -/
  | qWarningUnknowType (nativeType : Int)
  deriving DecidableEq

/-- The method `WInputDevice::type`: the switch over the type of the native handle,
then the warning and `Type::Unknow` when no case label matched. Returns the
category together with what was logged. -/
def WInputDevice.type (k : WlrInputDeviceType) (nativeType : Int) :
    InputType × List DeviceLog :=
  if nativeType = k.WLR_INPUT_DEVICE_KEYBOARD then (InputType.Keyboard, [])
  else if nativeType = k.WLR_INPUT_DEVICE_POINTER then (InputType.Pointer, [])
  else if nativeType = k.WLR_INPUT_DEVICE_TOUCH then (InputType.Touch, [])
  else if nativeType = k.WLR_INPUT_DEVICE_TABLET_TOOL then (InputType.Tablet, [])
  else if nativeType = k.WLR_INPUT_DEVICE_TABLET_PAD then (InputType.TabletPad, [])
  else if nativeType = k.WLR_INPUT_DEVICE_SWITCH then (InputType.Switch, [])
  else (InputType.Unknow, [DeviceLog.qWarningUnknowType nativeType])

/-- The static method `WInputDevice::from` (the word is reserved in Lean, hence the
longer name): `systemId` is what `device->systemId()` returns; the result is
`nullptr` below 65536 and otherwise the identifier reinterpreted as an address. -/
def WInputDevice.fromDevice (systemId : Int) : Option Nat :=
  if systemId < 65536 then none else some systemId.toNat

/-! ## Output viewport: data -/

/-- The integer size `QSize` of an output. -/
structure QSize where
  width : Int
  height : Int
  deriving DecidableEq

/-- A call on a collaborator, or a signal emission, made by the viewport. -/
inductive Call
  /-- The call `bufferRenderer->setSourceList(sources, forceInvalidate)`. -/
  | setSourceList (sources : List (Option Nat)) (forceInvalidate : Bool)
  /-- The call `bufferRenderer->setOutput(output)`. -/
  | bufferRendererSetOutput (output : Option Nat)
  /-- The call `bufferRenderer->setCacheBuffer(b)`. -/
  | bufferRendererSetCacheBuffer (b : Bool)
  /-- The call `outputWindow()->attach(q)` on the render window `window`. -/
  | attach (window : Nat)
  /-- The call `outputWindow()->detach(this)` on the render window `window`. -/
  | detach (window : Nat)
  /-- The call `window->setOutputScale(this, scale)`. -/
  | windowSetOutputScale (window : Nat) (scale : ℚ)
  /-- The call `window->rotateOutput(this, t)`. -/
  | windowRotateOutput (window : Nat) (t : Nat)
  /-- The call `window->render(this, doCommit)`. -/
  | windowRender (window : Nat) (doCommit : Bool)
  /-- The call `output->safeConnect(&WOutput::modeChanged, q, ...)`. -/
  | safeConnectModeChanged (output : Nat)
  | implicitWidthChanged
  | implicitHeightChanged
  | resetWidth
  | resetHeight
  /-- A line written through `qmlWarning(this)`. -/
  | qmlWarning (text : String)
  | inputChanged
  | outputChanged
  | devicePixelRatioChanged
  | offscreenChanged
  | preserveColorContentsChanged
  | liveChanged
  | layerFlagsChanged
  deriving DecidableEq

/-- Ways a call ends the process instead of returning. -/
inductive Fault
  /-- A `Q_ASSERT` whose condition is false, in a build that checks assertions. -/
  | assertFailed
  /-- A member call through `nullptr`. -/
  | nullPointer
  /-- The fatal message of `qFatal`. -/
  | fatal
  deriving DecidableEq

/-- The fields of `WOutputViewportPrivate` the source file reads or writes, with
the two fields of the base `QQuickItemPrivate` it consults (`componentComplete`,
`window`). The buffer renderer is created by `init()` in the constructor and never
reassigned; calls on it are recorded as `Call`s. -/
structure WOutputViewportPrivate where
  componentComplete : Bool
  window : Option Nat
  input : Option Nat
  extraRenderSource : Option Nat
  output : Option Nat
  devicePixelRatio : ℚ
  offscreen : Bool
  preserveColorContents : Bool
  live : Bool
  forceRender : Bool
  layerFlags : Nat
  deriving DecidableEq

/-- What a member function leaves behind when it returns: the new fields and the
calls it made, in order. -/
abbrev Outcome := Except Fault (WOutputViewportPrivate × List Call)

/-! ## Output viewport: operations -/

/-- Modelled from the spec: `outputWindow()` is declared in `woutputviewport_p.h`,
which is not among the sources. The owning render window is the window of the
scene the item is placed into (`itemChange` admits no other kind of window); it is
`nullptr` while the item is in no scene. -/
def WOutputViewportPrivate.outputWindow (d : WOutputViewportPrivate) : Option Nat :=
  d.window

/-- Qt's `qFuzzyCompare` for `double`, over exact rationals:
`qAbs(p1 - p2) * 1000000000000. <= qMin(qAbs(p1), qAbs(p2))`. -/
def qFuzzyCompare (p1 p2 : ℚ) : Bool :=
  decide (|p1 - p2| * 1000000000000 ≤ min |p1| |p2|)

/-- The text `setOutput` writes to `qmlWarning`. -/
def outputNonNullWarning : String :=
  "The \"output\" property is non-null, Not allow change it."

/-- A value of the type `qreal` (`double`, IEEE-754 binary64): a finite value
given by its sign bit and its magnitude (so both zeros are there), an infinity
given by its sign bit, or a NaN. -/
inductive qreal
  | finite (neg : Bool) (mag : ℚ)
  | inf (neg : Bool)
  | nan
  deriving DecidableEq

/-- The rational a finite `qreal` stands for; none for the infinities and NaN. -/
def qreal.toRat : qreal → Option ℚ
  | qreal.finite neg mag => some (if neg then -mag else mag)
  | _ => none

/-- The integer nearest to `x`, the even one of the two when `x` is half way. -/
def roundHalfEven (x : ℚ) : ℤ :=
  let f := ⌊x⌋
  if x - f < 1 / 2 then f
  else if 1 / 2 < x - f then f + 1
  else if f % 2 = 0 then f
  else f + 1

/-- Rounding of binary64 in the default mode (to nearest, ties to even): the
`qreal` with sign bit `neg` for the exact magnitude `a`. The spacing of the values
around `a` is `2 ^ p`, with 53 significant bits above `2 ^ (-1022)` and the fixed
spacing `2 ^ (-1074)` below; a rounded magnitude of `2 ^ 1024` or more is an
infinity. -/
def qreal.round (neg : Bool) (a : ℚ) : qreal :=
  if a ≤ 0 then qreal.finite neg 0
  else
    let p : ℤ := max (Int.log 2 a) (-1022) - 52
    let v : ℚ := roundHalfEven (a / 2 ^ p) * 2 ^ p
    if (2 : ℚ) ^ (1024 : ℤ) ≤ v then qreal.inf neg else qreal.finite neg v

/-- Division of two `double`s as IEEE-754 defines it. -/
def qreal.div : qreal → qreal → qreal
  | qreal.nan, _ => qreal.nan
  | _, qreal.nan => qreal.nan
  | qreal.inf _, qreal.inf _ => qreal.nan
  | qreal.inf s, qreal.finite t _ => qreal.inf (xor s t)
  | qreal.finite s _, qreal.inf t => qreal.finite (xor s t) 0
  | qreal.finite s a, qreal.finite t b =>
    if b = 0 then (if a = 0 then qreal.nan else qreal.inf (xor s t))
    else qreal.round (xor s t) (a / b)

/-- The conversion of an `int` to `double`; every 32-bit `int` is a binary64
value, so nothing is rounded. -/
def qreal.ofInt (i : Int) : qreal :=
  qreal.finite (decide (i < 0)) |(i : ℚ)|

/-- The `double` read from a field kept by its value `r`: its sign and magnitude.
A zero field reads as `+0.0`; a field holding an infinity or a NaN has no value
and is not covered. -/
def qreal.ofRat (r : ℚ) : qreal :=
  qreal.finite (decide (r < 0)) |r|

/-- The method `WOutputViewportPrivate::getImplicitWidth`; `size o` is what
`size()` of the output at `o` returns. The call goes through `output`; the `int`
width is converted to `double` and divided by the ratio. -/
def WOutputViewportPrivate.getImplicitWidth (size : Nat → QSize)
    (d : WOutputViewportPrivate) : Except Fault qreal :=
  match d.output with
  | none => Except.error Fault.nullPointer
  | some o =>
    Except.ok (qreal.div (qreal.ofInt (size o).width) (qreal.ofRat d.devicePixelRatio))

/-- The method `WOutputViewportPrivate::getImplicitHeight`. -/
def WOutputViewportPrivate.getImplicitHeight (size : Nat → QSize)
    (d : WOutputViewportPrivate) : Except Fault qreal :=
  match d.output with
  | none => Except.error Fault.nullPointer
  | some o =>
    Except.ok (qreal.div (qreal.ofInt (size o).height) (qreal.ofRat d.devicePixelRatio))

/-- The method `WOutputViewportPrivate::updateImplicitSize`: two notifications and
two resets on the base item, no field of the viewport written. -/
def WOutputViewportPrivate.updateImplicitSize (d : WOutputViewportPrivate) :
    WOutputViewportPrivate × List Call :=
  (d, [Call.implicitWidthChanged, Call.implicitHeightChanged,
       Call.resetWidth, Call.resetHeight])

/-- The method `WOutputViewportPrivate::updateRenderBufferSource`. -/
def WOutputViewportPrivate.updateRenderBufferSource (d : WOutputViewportPrivate) :
    WOutputViewportPrivate × List Call :=
  let sources : List (Option Nat) := []
  let sources :=
    match d.input with
    | some i => sources ++ [some i]
    | none => sources ++ [none]
  let sources :=
    match d.extraRenderSource with
    | some e => sources ++ [some e]
    | none => sources
  ({ d with forceRender := true }, [Call.setSourceList sources true])

/-- The method `WOutputViewportPrivate::setExtraRenderSource`. -/
def WOutputViewportPrivate.setExtraRenderSource (d : WOutputViewportPrivate)
    (source : Option Nat) : WOutputViewportPrivate × List Call :=
  if d.extraRenderSource = source then (d, [])
  else WOutputViewportPrivate.updateRenderBufferSource { d with extraRenderSource := source }

/-- The method `WOutputViewportPrivate::initForOutput`. The calls through
`outputWindow()` and through `output` abort when the pointer is null. -/
def WOutputViewportPrivate.initForOutput (d : WOutputViewportPrivate) : Outcome :=
  let r := d.updateRenderBufferSource
  let d1 := r.1
  match d1.outputWindow with
  | none => Except.error Fault.nullPointer
  | some w =>
    match d1.output with
    | none => Except.error Fault.nullPointer
    | some o =>
      let u := d1.updateImplicitSize
      Except.ok (u.1, r.2 ++ [Call.bufferRendererSetOutput d1.output, Call.attach w,
                               Call.safeConnectModeChanged o] ++ u.2)

/-- The slot `init()` connects to `WBufferRenderer::afterRendering`. -/
def afterRendering (d : WOutputViewportPrivate) : WOutputViewportPrivate × List Call :=
  ({ d with forceRender := false }, [])

/-- The slot `initForOutput()` connects to `WOutput::modeChanged`. -/
def modeChanged (d : WOutputViewportPrivate) : WOutputViewportPrivate × List Call :=
  d.updateImplicitSize

/-- The method `WOutputViewport::invalidate`. -/
def invalidate (d : WOutputViewportPrivate) : Outcome :=
  if d.componentComplete && d.output.isSome && d.window.isSome then
    match d.outputWindow with
    | none => Except.error Fault.nullPointer
    | some w => Except.ok ({ d with output := none }, [Call.detach w])
  else Except.ok (d, [])

/-- The method `WOutputViewport::setInput`. -/
def setInput (d : WOutputViewportPrivate) (item : Option Nat) :
    WOutputViewportPrivate × List Call :=
  if d.input = item then (d, [])
  else
    let d1 := { d with input := item }
    let r := if d1.output.isSome then d1.updateRenderBufferSource else (d1, [])
    (r.1, r.2 ++ [Call.inputChanged])

/-- The method `WOutputViewport::resetInput`. -/
def resetInput (d : WOutputViewportPrivate) : WOutputViewportPrivate × List Call :=
  setInput d none

/-- The method `WOutputViewport::setOutput`. `qtNoDebug` says whether the build
defines `QT_NO_DEBUG`, which compiles `Q_ASSERT` out. -/
def setOutput (qtNoDebug : Bool) (d : WOutputViewportPrivate) (newOutput : Option Nat) :
    Outcome :=
  if !qtNoDebug && !(!d.output.isSome || !newOutput.isSome) then
    Except.error Fault.assertFailed
  else if d.output.isSome && newOutput.isSome then
    Except.ok (d, [Call.qmlWarning outputNonNullWarning])
  else
    let d1 := { d with output := newOutput }
    if d1.componentComplete then
      if newOutput.isSome then
        match d1.initForOutput with
        | Except.error e => Except.error e
        | Except.ok r => Except.ok (r.1, r.2 ++ [Call.outputChanged])
      else Except.ok (d1, [Call.outputChanged])
    else Except.ok (d1, [Call.outputChanged])

/-- The method `WOutputViewport::setDevicePixelRatio`. -/
def setDevicePixelRatio (d : WOutputViewportPrivate) (newDevicePixelRatio : ℚ) :
    WOutputViewportPrivate × List Call :=
  if qFuzzyCompare d.devicePixelRatio newDevicePixelRatio then (d, [])
  else
    let d1 := { d with devicePixelRatio := newDevicePixelRatio }
    let r := if d1.output.isSome then d1.updateImplicitSize else (d1, [])
    (r.1, r.2 ++ [Call.devicePixelRatioChanged])

/-- The method `WOutputViewport::setOffscreen`. -/
def setOffscreen (d : WOutputViewportPrivate) (newOffscreen : Bool) :
    WOutputViewportPrivate × List Call :=
  if d.offscreen = newOffscreen then (d, [])
  else ({ d with offscreen := newOffscreen }, [Call.offscreenChanged])

/-- The method `WOutputViewport::setCacheBuffer`. -/
def setCacheBuffer (d : WOutputViewportPrivate) (newCacheBuffer : Bool) :
    WOutputViewportPrivate × List Call :=
  (d, [Call.bufferRendererSetCacheBuffer newCacheBuffer])

/-- The method `WOutputViewport::setPreserveColorContents`. -/
def setPreserveColorContents (d : WOutputViewportPrivate) (newPreserveColorContents : Bool) :
    WOutputViewportPrivate × List Call :=
  if d.preserveColorContents = newPreserveColorContents then (d, [])
  else ({ d with preserveColorContents := newPreserveColorContents },
        [Call.preserveColorContentsChanged])

/-- The method `WOutputViewport::setLive`. -/
def setLive (d : WOutputViewportPrivate) (newLive : Bool) :
    WOutputViewportPrivate × List Call :=
  if d.live = newLive then (d, [])
  else ({ d with live := newLive }, [Call.liveChanged])

/-- The method `WOutputViewport::setLayerFlags`. -/
def setLayerFlags (d : WOutputViewportPrivate) (newLayerFlags : Nat) :
    WOutputViewportPrivate × List Call :=
  if d.layerFlags = newLayerFlags then (d, [])
  else ({ d with layerFlags := newLayerFlags }, [Call.layerFlagsChanged])

/-- The method `WOutputViewport::setOutputScale`. -/
def setOutputScale (d : WOutputViewportPrivate) (scale : ℚ) :
    WOutputViewportPrivate × List Call :=
  match d.outputWindow with
  | some window => (d, [Call.windowSetOutputScale window scale])
  | none => (d, [])

/-- The method `WOutputViewport::rotateOutput`. -/
def rotateOutput (d : WOutputViewportPrivate) (t : Nat) :
    WOutputViewportPrivate × List Call :=
  match d.outputWindow with
  | some window => (d, [Call.windowRotateOutput window t])
  | none => (d, [])

/-- The method `WOutputViewport::render`. -/
def render (d : WOutputViewportPrivate) (doCommit : Bool) :
    WOutputViewportPrivate × List Call :=
  match d.outputWindow with
  | some window => (d, [Call.windowRender window doCommit])
  | none => (d, [])

/-- The method `WOutputViewport::componentComplete`; the base
`QQuickItem::componentComplete()` it ends with sets the `componentComplete` field. -/
def componentComplete (d : WOutputViewportPrivate) : Outcome :=
  if d.output.isSome then
    match d.initForOutput with
    | Except.error e => Except.error e
    | Except.ok r => Except.ok ({ r.1 with componentComplete := true }, r.2)
  else Except.ok ({ d with componentComplete := true }, [])

/-- The method `WOutputViewport::releaseResources`; the base
`QQuickItem::releaseResources()` does nothing. -/
def releaseResources (d : WOutputViewportPrivate) : Outcome :=
  invalidate d

/-- The method `WOutputViewport::itemChange`: `isSceneChange` is
`change == ItemSceneChange`, `dataWindow` is `data.window` and
`isOutputRenderWindow` the outcome of the `qobject_cast` on it. -/
def itemChange (d : WOutputViewportPrivate) (isSceneChange : Bool)
    (dataWindow : Option Nat) (isOutputRenderWindow : Bool) : Outcome :=
  if isSceneChange && dataWindow.isSome then
    if !isOutputRenderWindow then Except.error Fault.fatal
    else Except.ok (d, [])
  else Except.ok (d, [])

/-! ## Sequences of operations -/

/-- One step taken on a viewport: a public member function called with its
arguments, or one of the two connected slots running. -/
inductive Op
  | setInput (item : Option Nat)
  | resetInput
  | setExtraRenderSource (source : Option Nat)
  | setOutput (newOutput : Option Nat)
  | setDevicePixelRatio (newDevicePixelRatio : ℚ)
  | setOffscreen (newOffscreen : Bool)
  | setCacheBuffer (newCacheBuffer : Bool)
  | setPreserveColorContents (newPreserveColorContents : Bool)
  | setLive (newLive : Bool)
  | setLayerFlags (newLayerFlags : Nat)
  | setOutputScale (scale : ℚ)
  | rotateOutput (t : Nat)
  | render (doCommit : Bool)
  | componentComplete
  | releaseResources
  | invalidate
  | itemChange (isSceneChange : Bool) (dataWindow : Option Nat) (isOutputRenderWindow : Bool)
  | modeChanged
  | afterRendering
  deriving DecidableEq

/-- Runs one step. -/
def step (qtNoDebug : Bool) (d : WOutputViewportPrivate) : Op → Outcome
  | Op.setInput item => Except.ok (setInput d item)
  | Op.resetInput => Except.ok (resetInput d)
  | Op.setExtraRenderSource source => Except.ok (d.setExtraRenderSource source)
  | Op.setOutput newOutput => setOutput qtNoDebug d newOutput
  | Op.setDevicePixelRatio r => Except.ok (setDevicePixelRatio d r)
  | Op.setOffscreen b => Except.ok (setOffscreen d b)
  | Op.setCacheBuffer b => Except.ok (setCacheBuffer d b)
  | Op.setPreserveColorContents b => Except.ok (setPreserveColorContents d b)
  | Op.setLive b => Except.ok (setLive d b)
  | Op.setLayerFlags f => Except.ok (setLayerFlags d f)
  | Op.setOutputScale scale => Except.ok (setOutputScale d scale)
  | Op.rotateOutput t => Except.ok (rotateOutput d t)
  | Op.render doCommit => Except.ok (render d doCommit)
  | Op.componentComplete => componentComplete d
  | Op.releaseResources => releaseResources d
  | Op.invalidate => invalidate d
  | Op.itemChange c w b => itemChange d c w b
  | Op.modeChanged => Except.ok (modeChanged d)
  | Op.afterRendering => Except.ok (afterRendering d)

/-- Runs the steps in order and concatenates the calls they made; the first step
that aborts ends the run. -/
def run (qtNoDebug : Bool) : List Op → WOutputViewportPrivate → Outcome
  | [], d => Except.ok (d, [])
  | op :: ops, d =>
    match step qtNoDebug d op with
    | Except.error e => Except.error e
    | Except.ok r =>
      match run qtNoDebug ops r.1 with
      | Except.error e => Except.error e
      | Except.ok r2 => Except.ok (r2.1, r.2 ++ r2.2)

/-! ## Observations on a list of calls -/

/-- The source list of the last `setSourceList` call, if there was one. -/
def lastSourceList : List Call → Option (List (Option Nat))
  | [] => none
  | c :: cs =>
    match lastSourceList cs with
    | some l => some l
    | none =>
      match c with
      | Call.setSourceList sources _ => some sources
      | _ => none

/-- The `attach` (as `true`) and `detach` (as `false`) calls, in order. -/
def attachDetach : List Call → List Bool
  | [] => []
  | Call.attach _ :: cs => true :: attachDetach cs
  | Call.detach _ :: cs => false :: attachDetach cs
  | _ :: cs => attachDetach cs

/-- Whether a sequence of attach/detach marks alternates strictly, the first mark
being the opposite of `attached`; `attached` says whether an attach is unmatched
at the start. -/
def alternates (attached : Bool) : List Bool → Bool
  | [] => true
  | b :: bs => (b != attached) && alternates b bs

/-- Whether the calls bracket the attached lifetime: attach and detach strictly
alternate, starting with attach. -/
def bracketed (calls : List Call) : Bool :=
  alternates false (attachDetach calls)

/-- The source list as the specification words it: the input, or the null
sentinel when the input is unset, followed by the extra source exactly when it is
set. -/
def specSourceList (input extra : Option Nat) : List (Option Nat) :=
  [input] ++ (match extra with
    | some e => [some e]
    | none => [])

/-- Steps that are `setInput` or `setExtraRenderSource` calls. -/
def Op.isSourceCall : Op → Bool
  | Op.setInput _ => true
  | Op.setExtraRenderSource _ => true
  | _ => false

/-- Steps that are `setOutput`, `componentComplete`, `invalidate` or
`releaseResources` calls. -/
def Op.isLifecycleCall : Op → Bool
  | Op.setOutput _ => true
  | Op.componentComplete => true
  | Op.invalidate => true
  | Op.releaseResources => true
  | _ => false

/-- A viewport as a component of a scene leaves construction: completed, placed
in the render window at address 7, nothing bound, ratio 1. -/
def sample : WOutputViewportPrivate :=
  { componentComplete := true
    window := some 7
    input := none
    extraRenderSource := none
    output := none
    devicePixelRatio := 1
    offscreen := false
    preserveColorContents := false
    live := true
    forceRender := false
    layerFlags := 0 }

/-! ## Input device: classification and resolution -/

/-- C8: `WInputDevice::type` is total and, whenever the six enumerators have
pairwise different values, maps each of them to its own category with nothing
logged, and every other identifier to `Unknow` with exactly one warning (naming
that identifier) logged. -/
theorem type_classifies (k : WlrInputDeviceType) (hk : k.labels.Nodup) :
    WInputDevice.type k k.WLR_INPUT_DEVICE_KEYBOARD = (InputType.Keyboard, []) ∧
    WInputDevice.type k k.WLR_INPUT_DEVICE_POINTER = (InputType.Pointer, []) ∧
    WInputDevice.type k k.WLR_INPUT_DEVICE_TOUCH = (InputType.Touch, []) ∧
    WInputDevice.type k k.WLR_INPUT_DEVICE_TABLET_TOOL = (InputType.Tablet, []) ∧
    WInputDevice.type k k.WLR_INPUT_DEVICE_TABLET_PAD = (InputType.TabletPad, []) ∧
    WInputDevice.type k k.WLR_INPUT_DEVICE_SWITCH = (InputType.Switch, []) ∧
    (∀ t : Int, t ∉ k.labels →
      WInputDevice.type k t = (InputType.Unknow, [DeviceLog.qWarningUnknowType t]) ∧
      (WInputDevice.type k t).2.length = 1) := by
  simp only [WlrInputDeviceType.labels, List.nodup_cons, List.mem_cons, List.mem_singleton,
    List.not_mem_nil, not_or, List.nodup_nil, or_false, not_false_eq_true, and_true] at hk
  obtain ⟨⟨h12, h13, h14, h15, h16⟩, ⟨h23, h24, h25, h26⟩, ⟨h34, h35, h36⟩,
    ⟨h45, h46⟩, h56⟩ := hk
  refine ⟨?_, ?_, ?_, ?_, ?_, ?_, ?_⟩
  · simp [WInputDevice.type]
  · simp [WInputDevice.type, Ne.symm h12]
  · simp [WInputDevice.type, Ne.symm h13, Ne.symm h23]
  · simp [WInputDevice.type, Ne.symm h14, Ne.symm h24, Ne.symm h34]
  · simp [WInputDevice.type, Ne.symm h15, Ne.symm h25, Ne.symm h35, Ne.symm h45]
  · simp [WInputDevice.type, Ne.symm h16, Ne.symm h26, Ne.symm h36, Ne.symm h46, Ne.symm h56]
  · intro t ht
    simp only [WlrInputDeviceType.labels, List.mem_cons, List.mem_singleton,
      List.not_mem_nil, not_or, or_false] at ht
    obtain ⟨t1, t2, t3, t4, t5, t6⟩ := ht
    simp [WInputDevice.type, t1, t2, t3, t4, t5, t6]

/-- C8, at the wlroots numbering and the identifier 999: the six enumerators are
classified, and 999 gives `Unknow` with one warning. -/
theorem type_classifies_witness :
    wlroots.labels.Nodup ∧
    WInputDevice.type wlroots 0 = (InputType.Keyboard, []) ∧
    WInputDevice.type wlroots 3 = (InputType.Tablet, []) ∧
    WInputDevice.type wlroots 999 = (InputType.Unknow, [DeviceLog.qWarningUnknowType 999]) ∧
    (WInputDevice.type wlroots 999).2.length = 1 :=
  ⟨by decide, (type_classifies wlroots (by decide)).1,
    (type_classifies wlroots (by decide)).2.2.2.1,
    (type_classifies wlroots (by decide)).2.2.2.2.2.2 999 (by decide)⟩

/-- C9: `WInputDevice::from` returns no association for every system identifier
below 65536, and whenever it returns an association the identifier is at least
65536 (the association being the identifier taken as an address). -/
theorem fromDevice_threshold (systemId : Int) :
    (systemId < 65536 → WInputDevice.fromDevice systemId = none) ∧
    (∀ p : Nat, WInputDevice.fromDevice systemId = some p →
      65536 ≤ systemId ∧ (p : Int) = systemId) := by
  constructor
  · intro h
    simp [WInputDevice.fromDevice, h]
  · intro p hp
    unfold WInputDevice.fromDevice at hp
    split at hp
    · cases hp
    · injection hp with hp
      omega

/-- C9, at the identifiers 100 (no association) and 65536 (an association). -/
theorem fromDevice_threshold_witness :
    WInputDevice.fromDevice 100 = none ∧
    (65536 ≤ (65536 : Int) ∧ ((65536 : Nat) : Int) = 65536) :=
  ⟨(fromDevice_threshold 100).1 (by decide),
    (fromDevice_threshold 65536).2 65536 (by decide)⟩

/-! ## Output viewport: binding -/

/-- C1, as stated, fails in a build that checks assertions: on a viewport bound to
the output at 1, `setOutput` of the output at 2 aborts at the `Q_ASSERT` instead of
returning. -/
theorem setOutput_rebind_aborts_when_asserting :
    setOutput false { sample with output := some 1 } (some 2)
      = Except.error Fault.assertFailed := by
  rfl

/-- C1, amended: on a viewport bound to a non-null output A, `setOutput` of a
non-null output B different from A, in a build that defines `QT_NO_DEBUG`,
returns normally having only written the warning: no field changes (so `output()`
is still A), no attached-state setup runs and `outputChanged` is not emitted. In a
build that checks assertions the same call aborts at the `Q_ASSERT`. -/
theorem setOutput_rebind_rejected (d : WOutputViewportPrivate) (A B : Nat)
    (hA : d.output = some A) (hAB : B ≠ A) :
    setOutput true d (some B) = Except.ok (d, [Call.qmlWarning outputNonNullWarning]) ∧
    (∀ d1 calls, setOutput true d (some B) = Except.ok (d1, calls) →
      d1.output = some A ∧ Call.outputChanged ∉ calls ∧ attachDetach calls = [] ∧
      lastSourceList calls = none) ∧
    setOutput false d (some B) = Except.error Fault.assertFailed := by
  have _ := hAB
  refine ⟨?_, ?_, ?_⟩
  · simp [setOutput, hA]
  · intro d1 calls h
    simp only [setOutput, hA, Option.isSome_some, Bool.not_true, Bool.or_self,
      Bool.not_false, Bool.and_true, Bool.and_self, ↓reduceIte, Bool.false_eq_true,
      Except.ok.injEq, Prod.mk.injEq] at h
    obtain ⟨rfl, rfl⟩ := h
    simp [hA, attachDetach, lastSourceList]
  · simp [setOutput, hA]

/-- C1 amended, on the viewport bound to the output at 1 asked to bind the output
at 2. -/
theorem setOutput_rebind_rejected_witness :
    setOutput true { sample with output := some 1 } (some 2)
      = Except.ok ({ sample with output := some 1 },
          [Call.qmlWarning outputNonNullWarning]) :=
  (setOutput_rebind_rejected { sample with output := some 1 } 1 2 rfl (by decide)).1

/-! ## Output viewport: requests to the render window -/

/-- C4, as stated, fails: a viewport that has an output bound but is not completed
yet (so `attach` never ran), and a viewport that was invalidated, both forward
`render`, `setOutputScale` and `rotateOutput` to the render window they sit in. -/
theorem detached_viewport_still_forwards :
    (render { sample with componentComplete := false, output := some 1 } true).2
      = [Call.windowRender 7 true] ∧
    invalidate { sample with output := some 1 } = Except.ok (sample, [Call.detach 7]) ∧
    (render sample true).2 = [Call.windowRender 7 true] ∧
    (setOutputScale sample 2).2 = [Call.windowSetOutputScale 7 2] ∧
    (rotateOutput sample 3).2 = [Call.windowRotateOutput 7 3] := by
  refine ⟨rfl, rfl, rfl, rfl, rfl⟩

/-- C4, amended: `setOutputScale`, `rotateOutput` and `render` change no field of
the viewport, and each sends exactly its one request to the owning render window
when `outputWindow()` is non-null and sends nothing when it is null, whatever
the bound output and the completion state are. -/
theorem requests_forwarded_iff_outputWindow (d : WOutputViewportPrivate) (scale : ℚ)
    (t : Nat) (doCommit : Bool) :
    setOutputScale d scale
      = (d, (d.outputWindow.map (fun w => Call.windowSetOutputScale w scale)).toList) ∧
    rotateOutput d t
      = (d, (d.outputWindow.map (fun w => Call.windowRotateOutput w t)).toList) ∧
    render d doCommit
      = (d, (d.outputWindow.map (fun w => Call.windowRender w doCommit)).toList) := by
  unfold setOutputScale rotateOutput render
  cases h : d.outputWindow <;> simp

/-! ## Output viewport: same input -/

/-- C7: `setInput` with the reference that is the current input returns the
viewport unchanged (stored input and force-render flag included) and makes no
call: no source list goes to the buffer renderer and `inputChanged` is not
emitted. -/
theorem setInput_same_is_noop (d : WOutputViewportPrivate) (qtNoDebug : Bool) :
    setInput d d.input = (d, []) ∧
    step qtNoDebug d (Op.setInput d.input) = Except.ok (d, []) ∧
    (setInput d d.input).1.forceRender = d.forceRender ∧
    lastSourceList (setInput d d.input).2 = none ∧
    Call.inputChanged ∉ (setInput d d.input).2 := by
  have h : setInput d d.input = (d, []) := by simp [setInput]
  simp [step, h, lastSourceList]

/-! ## Output viewport: invalidation -/

/-- C6: `invalidate` always returns; a second `invalidate` right after it changes
no field and makes no call, so two calls in a row leave the same fields and the
same calls as one (at most one `detach`, and nothing but `detach`); on a viewport
that is not completed, has no bound output or sits in no window, `invalidate`
changes no field and makes no call. -/
theorem invalidate_idempotent (d : WOutputViewportPrivate) (qtNoDebug : Bool) :
    ∃ d1 c1, invalidate d = Except.ok (d1, c1) ∧
      invalidate d1 = Except.ok (d1, []) ∧
      run qtNoDebug [Op.invalidate, Op.invalidate] d = run qtNoDebug [Op.invalidate] d ∧
      run qtNoDebug [Op.invalidate] d = Except.ok (d1, c1) ∧
      (c1 = [] ∨ ∃ w, c1 = [Call.detach w]) ∧
      ((d.componentComplete = false ∨ d.output = none ∨ d.window = none) →
        d1 = d ∧ c1 = []) := by
  obtain ⟨cc, w, i, e, o, r, off, p, l, f, lf⟩ := d
  cases cc <;> cases o <;> cases w <;> refine ⟨_, _, rfl, ?_⟩ <;>
    simp [invalidate, run, step, WOutputViewportPrivate.outputWindow]

/-- C6, on a viewport attached to the output at 1 (one `detach`, then nothing) and
on the viewport with no bound output (nothing at all). -/
theorem invalidate_idempotent_witness :
    invalidate { sample with output := some 1 } = Except.ok (sample, [Call.detach 7]) ∧
    run true [Op.invalidate, Op.invalidate] { sample with output := some 1 }
      = Except.ok (sample, [Call.detach 7]) ∧
    invalidate sample = Except.ok (sample, []) := by
  refine ⟨rfl, ?_, ?_⟩
  · obtain ⟨d1, c1, _, _, h3, h4, _, _⟩ :=
      invalidate_idempotent { sample with output := some 1 } true
    rw [h3]
    rfl
  · obtain ⟨d1, c1, h1, _, _, _, _, h6⟩ := invalidate_idempotent sample true
    obtain ⟨rfl, rfl⟩ := h6 (Or.inr (Or.inl rfl))
    exact h1

/-! ## Output viewport: implicit size -/

/-- An integer rounds to itself. -/
theorem roundHalfEven_intCast (k : ℤ) : roundHalfEven (k : ℚ) = k := by
  simp [roundHalfEven]

/-- Rounding to the nearest integer moves a value by at most one half. -/
theorem roundHalfEven_error (x : ℚ) : |((roundHalfEven x : ℤ) : ℚ) - x| ≤ 1 / 2 := by
  have h1 := Int.floor_le x
  have h2 := Int.lt_floor_add_one x
  unfold roundHalfEven
  simp only
  split_ifs <;> rw [abs_le] <;> constructor <;> push_cast <;> linarith

/-- The binary logarithm, rounded down, of a value between two powers of two. -/
theorem log2_eq (a : ℚ) (k : ℤ) (h1 : (2 : ℚ) ^ k ≤ a) (h2 : a < (2 : ℚ) ^ (k + 1)) :
    Int.log 2 a = k := by
  have hpos : 0 < a := lt_of_lt_of_le (by positivity) h1
  have hle : k ≤ Int.log 2 a :=
    (Int.zpow_le_iff_le_log (b := 2) one_lt_two hpos).1 (by exact_mod_cast h1)
  have hlt : Int.log 2 a < k + 1 :=
    (Int.lt_zpow_iff_log_lt (b := 2) one_lt_two hpos).1 (by exact_mod_cast h2)
  omega

/-- A magnitude that is a binary64 value (`m * 2 ^ e` with `m` below `2 ^ 53` and
`e` from -1074 to 971) is not changed by rounding. -/
theorem round_exact (neg : Bool) (a : ℚ) (m : ℕ) (e : ℤ) (hm : m < 2 ^ 53)
    (he : -1074 ≤ e) (he2 : e ≤ 971) (ha : a = m * (2 : ℚ) ^ e) :
    qreal.round neg a = qreal.finite neg a := by
  have h2 : (2 : ℚ) ≠ 0 := by norm_num
  have h2pos : ∀ z : ℤ, (0 : ℚ) < 2 ^ z := fun z => by positivity
  have hnn : 0 ≤ a := by rw [ha]; exact mul_nonneg (Nat.cast_nonneg m) (h2pos e).le
  rcases hnn.eq_or_lt with h0 | hpos
  · rw [← h0]
    simp [qreal.round]
  have hm1 : (m : ℚ) < (2 : ℚ) ^ (53 : ℤ) := by
    have h : (m : ℚ) < (2 : ℚ) ^ (53 : ℕ) := by exact_mod_cast hm
    rwa [← zpow_natCast] at h
  have hlt : a < (2 : ℚ) ^ (e + 53) := by
    rw [ha, zpow_add₀ h2, mul_comm]
    exact mul_lt_mul_of_pos_left hm1 (h2pos e)
  have hlog : Int.log 2 a < e + 53 :=
    (Int.lt_zpow_iff_log_lt (b := 2) one_lt_two hpos).1 (by exact_mod_cast hlt)
  have hbig : ¬ (2 : ℚ) ^ (1024 : ℤ) ≤ a := by
    have h1 : (2 : ℚ) ^ (e + 53) ≤ (2 : ℚ) ^ (1024 : ℤ) :=
      zpow_le_zpow_right₀ (by norm_num) (by omega)
    exact not_le.mpr (lt_of_lt_of_le hlt h1)
  unfold qreal.round
  simp only [not_le.mpr hpos, ↓reduceIte]
  generalize hpd : max (Int.log 2 a) (-1022) - 52 = p
  have hp : p ≤ e := by
    rw [← hpd]
    rcases max_cases (Int.log 2 a) (-1022) with ⟨h, _⟩ | ⟨h, _⟩ <;> rw [h] <;> omega
  obtain ⟨n, hn⟩ := Int.eq_ofNat_of_zero_le (sub_nonneg.mpr hp)
  have he1 : e = p + n := by omega
  have hx : a / (2 : ℚ) ^ p = ((m * 2 ^ n : ℤ) : ℚ) := by
    rw [ha, he1, zpow_add₀ h2, zpow_natCast]
    have := (h2pos p).ne'
    field_simp
    ring
  have hv : ((m * 2 ^ n : ℤ) : ℚ) * (2 : ℚ) ^ p = a := by
    rw [← hx]
    have := (h2pos p).ne'
    field_simp
  rw [hx, roundHalfEven_intCast, hv]
  simp only [hbig, ↓reduceIte]

/-- Rounding a magnitude of at least `2 ^ (-1022)` gives an infinity of the same
sign or a finite value of the same sign within the relative error `2 ^ (-53)`. -/
theorem round_error (neg : Bool) (a : ℚ) (hnorm : (2 : ℚ) ^ (-1022 : ℤ) ≤ a) :
    qreal.round neg a = qreal.inf neg ∨
    ∃ v : ℚ, qreal.round neg a = qreal.finite neg v ∧
      |v - a| ≤ a * (2 : ℚ) ^ (-53 : ℤ) := by
  have h2 : (2 : ℚ) ≠ 0 := by norm_num
  have h2pos : ∀ z : ℤ, (0 : ℚ) < 2 ^ z := fun z => by positivity
  have hpos : 0 < a := lt_of_lt_of_le (h2pos _) hnorm
  have hlog : -1022 ≤ Int.log 2 a :=
    (Int.zpow_le_iff_le_log (b := 2) one_lt_two hpos).1 (by exact_mod_cast hnorm)
  have hle : (2 : ℚ) ^ Int.log 2 a ≤ a := by
    have := Int.zpow_log_le_self (b := 2) one_lt_two hpos
    exact_mod_cast this
  unfold qreal.round
  simp only [not_le.mpr hpos, ↓reduceIte, max_eq_left hlog]
  generalize hpd : Int.log 2 a - 52 = p
  split
  · exact Or.inl rfl
  · refine Or.inr ⟨_, rfl, ?_⟩
    have herr := roundHalfEven_error (a / (2 : ℚ) ^ p)
    have hpp := h2pos p
    have hq : (2 : ℚ) ^ p = (2 : ℚ) ^ Int.log 2 a * (2 : ℚ) ^ (-52 : ℤ) := by
      rw [← hpd, sub_eq_add_neg, zpow_add₀ h2]
    have h53 : (2 : ℚ) ^ (-53 : ℤ) = (2 : ℚ) ^ (-52 : ℤ) / 2 := by
      rw [show (-53 : ℤ) = -52 + -1 by norm_num, zpow_add₀ h2]
      simp [div_eq_mul_inv]
    have hva : ((roundHalfEven (a / (2 : ℚ) ^ p) : ℤ) : ℚ) * (2 : ℚ) ^ p - a
        = ((roundHalfEven (a / (2 : ℚ) ^ p) : ℤ) - a / (2 : ℚ) ^ p) * (2 : ℚ) ^ p := by
      field_simp
    rw [hva, abs_mul, abs_of_pos hpp]
    calc |((roundHalfEven (a / (2 : ℚ) ^ p) : ℤ) : ℚ) - a / (2 : ℚ) ^ p| * (2 : ℚ) ^ p
        ≤ 1 / 2 * (2 : ℚ) ^ p := mul_le_mul_of_nonneg_right herr hpp.le
      _ = (2 : ℚ) ^ Int.log 2 a * ((2 : ℚ) ^ (-52 : ℤ) / 2) := by rw [hq]; ring
      _ ≤ a * ((2 : ℚ) ^ (-52 : ℤ) / 2) := mul_le_mul_of_nonneg_right hle (by positivity)
      _ = a * (2 : ℚ) ^ (-53 : ℤ) := by rw [h53]

/-- Dividing a converted `int` by a positive ratio rounds the exact quotient of
the magnitudes and keeps the sign of the `int`. -/
theorem div_ofInt_ofRat (i : ℤ) (r : ℚ) (hr : 0 < r) :
    qreal.div (qreal.ofInt i) (qreal.ofRat r)
      = qreal.round (decide (i < 0)) (|(i : ℚ)| / r) := by
  simp [qreal.div, qreal.ofInt, qreal.ofRat, hr.ne', not_lt.mpr hr.le, abs_of_pos hr]

/-- The signed value of a sign bit and the magnitude of a quotient. -/
theorem signed_quotient (i : ℤ) (r : ℚ) :
    (if decide (i < 0) = true then -(|(i : ℚ)| / r) else |(i : ℚ)| / r) = (i : ℚ) / r := by
  by_cases hi : i < 0
  · have : (i : ℚ) < 0 := by exact_mod_cast hi
    simp [hi, abs_of_neg this, neg_div]
  · have : (0 : ℚ) ≤ i := by exact_mod_cast not_lt.mp hi
    simp [hi, abs_of_nonneg this]

/-- The quotient of a converted `int` by a positive ratio is exact when the exact
quotient is a binary64 value. -/
theorem div_exact (i : ℤ) (r : ℚ) (hr : 0 < r) (m : ℕ) (e : ℤ) (hm : m < 2 ^ 53)
    (he : -1074 ≤ e) (he2 : e ≤ 971) (ha : |(i : ℚ)| / r = m * (2 : ℚ) ^ e) :
    (qreal.div (qreal.ofInt i) (qreal.ofRat r)).toRat = some ((i : ℚ) / r) := by
  rw [div_ofInt_ofRat i r hr, round_exact _ _ m e hm he he2 ha]
  simp only [qreal.toRat, signed_quotient]

/-- The finite quotient of a converted `int` by a positive ratio, when the exact
quotient has a magnitude of at least `2 ^ (-1022)`, is within the relative error
`2 ^ (-53)` of it. -/
theorem div_error (i : ℤ) (r : ℚ) (hr : 0 < r) (v : ℚ)
    (hv : (qreal.div (qreal.ofInt i) (qreal.ofRat r)).toRat = some v)
    (hnorm : (2 : ℚ) ^ (-1022 : ℤ) ≤ |(i : ℚ)| / r) :
    |v - (i : ℚ) / r| ≤ |(i : ℚ)| / r * (2 : ℚ) ^ (-53 : ℤ) := by
  rw [div_ofInt_ofRat i r hr] at hv
  rcases round_error (decide (i < 0)) _ hnorm with h | ⟨u, h, hu⟩
  · rw [h] at hv
    simp [qreal.toRat] at hv
  · rw [h] at hv
    simp only [qreal.toRat, Option.some.injEq] at hv
    rw [← hv, ← signed_quotient i r]
    by_cases hi : i < 0
    · simp only [hi, decide_True, ↓reduceIte]
      rw [show -u - -(|(i : ℚ)| / r) = -(u - |(i : ℚ)| / r) by ring, abs_neg]
      exact hu
    · simp only [hi, decide_False, Bool.false_eq_true, ↓reduceIte]
      exact hu

/-- C5, as stated, fails: for an output 1000 wide and the ratio 3,
`getImplicitWidth` returns the `double` 5864062014805333 / 2 ^ 44, which is not
1000 / 3; for an output 1920 wide and the smallest positive ratio,
2 ^ (-1074), it returns the positive infinity. -/
theorem implicit_width_is_rounded :
    WOutputViewportPrivate.getImplicitWidth (fun _ => { width := 1000, height := 1000 })
        { sample with output := some 1, devicePixelRatio := 3 }
      = Except.ok (qreal.finite false (5864062014805333 / 17592186044416)) ∧
    (5864062014805333 / 17592186044416 : ℚ) ≠ 1000 / 3 ∧
    WOutputViewportPrivate.getImplicitWidth (fun _ => { width := 1920, height := 1080 })
        { sample with output := some 1, devicePixelRatio := 1 / 2 ^ 1074 }
      = Except.ok (qreal.inf false) := by
  refine ⟨?_, by norm_num, ?_⟩
  · have hl : Int.log 2 (1000 / 3 : ℚ) = 8 := log2_eq _ 8 (by norm_num) (by norm_num)
    have hf : ⌊(17592186044416000 / 3 : ℚ)⌋ = 5864062014805333 := by
      rw [Int.floor_eq_iff]
      constructor <;> norm_num
    have hx : (1000 / 3 : ℚ) / 2 ^ (-44 : ℤ) = 17592186044416000 / 3 := by norm_num
    have hr : qreal.round false (1000 / 3) =
        qreal.finite false (5864062014805333 / 17592186044416) := by
      unfold qreal.round
      rw [if_neg (by norm_num), hl]
      simp only [show max (8 : ℤ) (-1022) - 52 = -44 by decide, hx, roundHalfEven, hf]
      norm_num
    simp only [WOutputViewportPrivate.getImplicitWidth, sample]
    rw [div_ofInt_ofRat _ _ (by norm_num)]
    norm_num
    exact hr
  · have hl : Int.log 2 (1920 / (1 / 2 ^ 1074) : ℚ) = 1084 :=
      log2_eq _ 1084 (by norm_num) (by norm_num)
    have hx : (1920 / (1 / 2 ^ 1074) : ℚ) / 2 ^ (1032 : ℤ) = ((8444249301319680 : ℤ) : ℚ) := by
      norm_num
    have hr : qreal.round false (1920 / (1 / 2 ^ 1074)) = qreal.inf false := by
      unfold qreal.round
      rw [if_neg (by norm_num), hl]
      simp only [show max (1084 : ℤ) (-1022) - 52 = 1032 by decide, hx,
        roundHalfEven_intCast]
      rw [if_pos (by norm_num)]
    have key : qreal.round (decide ((1920 : ℤ) < 0)) (|((1920 : ℤ) : ℚ)| / (1 / 2 ^ 1074))
        = qreal.inf false := by
      rw [show decide ((1920 : ℤ) < 0) = false by decide,
        show |((1920 : ℤ) : ℚ)| = 1920 by norm_num]
      exact hr
    simp only [WOutputViewportPrivate.getImplicitWidth, sample]
    rw [div_ofInt_ofRat _ _ (by norm_num)]
    exact congrArg Except.ok key

/-- C5, amended: with an output of size (w, h) bound and a positive ratio r
stored, `getImplicitWidth` and `getImplicitHeight` return the `double` quotient
of the converted `int` by the ratio, that is w / r and h / r rounded to the
nearest binary64 value (ties to even, an infinity on overflow), not an integer
quotient. The result is exactly w / r (h / r) whenever that quotient is itself a
binary64 value, and when it is finite and the quotient has a magnitude of at least
2 ^ (-1022) it is within the relative error 2 ^ (-53) of it. The same holds of
the fields as they stand after a mode change, after `setDevicePixelRatio` (where
the stored ratio is the new one unless `qFuzzyCompare` found it equal to the old
one) and after `setOutput` binds the output. -/
theorem implicit_size_eq (size : Nat → QSize) (o : Nat) (w h : Int)
    (hs : size o = { width := w, height := h }) (d : WOutputViewportPrivate)
    (hpos : 0 < d.devicePixelRatio) :
    (d.output = some o →
      d.getImplicitWidth size
        = Except.ok (qreal.round (decide (w < 0)) (|(w : ℚ)| / d.devicePixelRatio)) ∧
      d.getImplicitHeight size
        = Except.ok (qreal.round (decide (h < 0)) (|(h : ℚ)| / d.devicePixelRatio))) ∧
    (d.output = some o →
      ∀ (m : ℕ) (e : ℤ), m < 2 ^ 53 → -1074 ≤ e → e ≤ 971 →
        (|(w : ℚ)| / d.devicePixelRatio = m * (2 : ℚ) ^ e →
          (d.getImplicitWidth size).map qreal.toRat
            = Except.ok (some ((w : ℚ) / d.devicePixelRatio))) ∧
        (|(h : ℚ)| / d.devicePixelRatio = m * (2 : ℚ) ^ e →
          (d.getImplicitHeight size).map qreal.toRat
            = Except.ok (some ((h : ℚ) / d.devicePixelRatio)))) ∧
    (d.output = some o →
      ∀ v : ℚ,
        ((d.getImplicitWidth size).map qreal.toRat = Except.ok (some v) →
          (2 : ℚ) ^ (-1022 : ℤ) ≤ |(w : ℚ)| / d.devicePixelRatio →
          |v - (w : ℚ) / d.devicePixelRatio|
            ≤ |(w : ℚ)| / d.devicePixelRatio * (2 : ℚ) ^ (-53 : ℤ)) ∧
        ((d.getImplicitHeight size).map qreal.toRat = Except.ok (some v) →
          (2 : ℚ) ^ (-1022 : ℤ) ≤ |(h : ℚ)| / d.devicePixelRatio →
          |v - (h : ℚ) / d.devicePixelRatio|
            ≤ |(h : ℚ)| / d.devicePixelRatio * (2 : ℚ) ^ (-53 : ℤ))) ∧
    (d.output = some o →
      (modeChanged d).1.getImplicitWidth size
        = Except.ok (qreal.round (decide (w < 0)) (|(w : ℚ)| / d.devicePixelRatio)) ∧
      (modeChanged d).1.getImplicitHeight size
        = Except.ok (qreal.round (decide (h < 0)) (|(h : ℚ)| / d.devicePixelRatio))) ∧
    (∀ r : ℚ, 0 < r → d.output = some o →
      (setDevicePixelRatio d r).1.getImplicitWidth size
        = Except.ok (qreal.round (decide (w < 0))
            (|(w : ℚ)| / (setDevicePixelRatio d r).1.devicePixelRatio)) ∧
      (setDevicePixelRatio d r).1.getImplicitHeight size
        = Except.ok (qreal.round (decide (h < 0))
            (|(h : ℚ)| / (setDevicePixelRatio d r).1.devicePixelRatio)) ∧
      (qFuzzyCompare d.devicePixelRatio r = false →
        (setDevicePixelRatio d r).1.devicePixelRatio = r)) ∧
    (∀ (qtNoDebug : Bool) (d1 : WOutputViewportPrivate) (calls : List Call),
      d.output = none → setOutput qtNoDebug d (some o) = Except.ok (d1, calls) →
      d1.getImplicitWidth size
        = Except.ok (qreal.round (decide (w < 0)) (|(w : ℚ)| / d.devicePixelRatio)) ∧
      d1.getImplicitHeight size
        = Except.ok (qreal.round (decide (h < 0)) (|(h : ℚ)| / d.devicePixelRatio))) := by
  have hget : ∀ d0 : WOutputViewportPrivate, d0.output = some o →
      0 < d0.devicePixelRatio →
      d0.getImplicitWidth size
        = Except.ok (qreal.div (qreal.ofInt w) (qreal.ofRat d0.devicePixelRatio)) ∧
      d0.getImplicitHeight size
        = Except.ok (qreal.div (qreal.ofInt h) (qreal.ofRat d0.devicePixelRatio)) := by
    intro d0 ho _
    simp [WOutputViewportPrivate.getImplicitWidth,
      WOutputViewportPrivate.getImplicitHeight, ho, hs]
  have hround : ∀ d0 : WOutputViewportPrivate, d0.output = some o →
      0 < d0.devicePixelRatio →
      d0.getImplicitWidth size
        = Except.ok (qreal.round (decide (w < 0)) (|(w : ℚ)| / d0.devicePixelRatio)) ∧
      d0.getImplicitHeight size
        = Except.ok (qreal.round (decide (h < 0)) (|(h : ℚ)| / d0.devicePixelRatio)) := by
    intro d0 ho hp
    rw [(hget d0 ho hp).1, (hget d0 ho hp).2, div_ofInt_ofRat w _ hp,
      div_ofInt_ofRat h _ hp]
    exact ⟨rfl, rfl⟩
  refine ⟨fun ho => hround d ho hpos, ?_, ?_, ?_, ?_, ?_⟩
  · intro ho m e hm he he2
    rw [(hget d ho hpos).1, (hget d ho hpos).2]
    constructor
    · intro ha
      simp only [Except.map, div_exact w _ hpos m e hm he he2 ha]
    · intro ha
      simp only [Except.map, div_exact h _ hpos m e hm he he2 ha]
  · intro ho v
    rw [(hget d ho hpos).1, (hget d ho hpos).2]
    constructor
    · intro hv hnorm
      simp only [Except.map, Except.ok.injEq] at hv
      exact div_error w _ hpos v hv hnorm
    · intro hv hnorm
      simp only [Except.map, Except.ok.injEq] at hv
      exact div_error h _ hpos v hv hnorm
  · intro ho
    exact hround (modeChanged d).1 ho hpos
  · intro r hr ho
    by_cases hf : qFuzzyCompare d.devicePixelRatio r = true
    · have hd : (setDevicePixelRatio d r).1 = d := by simp [setDevicePixelRatio, hf]
      rw [hd]
      exact ⟨(hround d ho hpos).1, (hround d ho hpos).2, fun h => by simp [hf] at h⟩
    · have hd : (setDevicePixelRatio d r).1 = { d with devicePixelRatio := r } := by
        simp [setDevicePixelRatio, hf, ho, WOutputViewportPrivate.updateImplicitSize]
      rw [hd]
      exact ⟨(hround { d with devicePixelRatio := r } ho hr).1,
        (hround { d with devicePixelRatio := r } ho hr).2, fun _ => rfl⟩
  · intro b d1 calls ho hset
    have hd1 : d1.output = some o ∧ d1.devicePixelRatio = d.devicePixelRatio := by
      obtain ⟨cc, win, i, e, out, r, off, p, l, f, lf⟩ := d
      simp only at ho
      subst ho
      cases cc <;> cases win <;>
        simp [setOutput, WOutputViewportPrivate.initForOutput,
          WOutputViewportPrivate.updateRenderBufferSource,
          WOutputViewportPrivate.outputWindow,
          WOutputViewportPrivate.updateImplicitSize] at hset <;>
        obtain ⟨rfl, _⟩ := hset <;> exact ⟨rfl, rfl⟩
    have hp1 : 0 < d1.devicePixelRatio := by rw [hd1.2]; exact hpos
    have := hround d1 hd1.1 hp1
    rw [hd1.2] at this
    exact this

/-- C5 amended, for an output of 1920 by 1080 and ratio 2: the implicit size is
960 by 540, exactly; with a width of 1081 the implicit width is 1081 / 2, not
540. -/
theorem implicit_size_eq_witness :
    (WOutputViewportPrivate.getImplicitWidth (fun _ => { width := 1920, height := 1080 })
        { sample with output := some 1, devicePixelRatio := 2 }).map qreal.toRat
      = Except.ok (some 960) ∧
    (WOutputViewportPrivate.getImplicitHeight (fun _ => { width := 1920, height := 1080 })
        { sample with output := some 1, devicePixelRatio := 2 }).map qreal.toRat
      = Except.ok (some 540) ∧
    (WOutputViewportPrivate.getImplicitWidth (fun _ => { width := 1081, height := 1080 })
        { sample with output := some 1, devicePixelRatio := 2 }).map qreal.toRat
      = Except.ok (some (1081 / 2)) := by
  have h1 := ((implicit_size_eq (fun _ => { width := 1920, height := 1080 }) 1 1920 1080 rfl
    { sample with output := some 1, devicePixelRatio := 2 } (by norm_num)).2.1 rfl
    960 0 (by norm_num) (by norm_num) (by norm_num)).1 (by norm_num)
  have h2 := ((implicit_size_eq (fun _ => { width := 1920, height := 1080 }) 1 1920 1080 rfl
    { sample with output := some 1, devicePixelRatio := 2 } (by norm_num)).2.1 rfl
    540 0 (by norm_num) (by norm_num) (by norm_num)).2 (by norm_num)
  have h3 := ((implicit_size_eq (fun _ => { width := 1081, height := 1080 }) 1 1081 1080 rfl
    { sample with output := some 1, devicePixelRatio := 2 } (by norm_num)).2.1 rfl
    1081 (-1) (by norm_num) (by norm_num) (by norm_num)).1 (by norm_num)
  refine ⟨?_, ?_, ?_⟩
  · rw [h1]; norm_num
  · rw [h2]; norm_num
  · rw [h3]; norm_num

/-! ## Output viewport: source list and force-render flag -/

/-- The list `updateRenderBufferSource` builds is the one the specification words,
and the call sets the flag and passes `forceInvalidate = true`. -/
theorem updateRenderBufferSource_eq (d : WOutputViewportPrivate) :
    d.updateRenderBufferSource
      = ({ d with forceRender := true },
         [Call.setSourceList (specSourceList d.input d.extraRenderSource) true]) := by
  unfold WOutputViewportPrivate.updateRenderBufferSource specSourceList
  cases d.input <;> cases d.extraRenderSource <;> rfl

/-- What `initForOutput` does when it returns, and when it does not. -/
theorem initForOutput_eq (d : WOutputViewportPrivate) :
    d.initForOutput =
      match d.window, d.output with
      | some w, some o =>
        Except.ok ({ d with forceRender := true },
          [Call.setSourceList (specSourceList d.input d.extraRenderSource) true,
           Call.bufferRendererSetOutput (some o), Call.attach w,
           Call.safeConnectModeChanged o, Call.implicitWidthChanged,
           Call.implicitHeightChanged, Call.resetWidth, Call.resetHeight])
      | _, _ => Except.error Fault.nullPointer := by
  unfold WOutputViewportPrivate.initForOutput
  rw [updateRenderBufferSource_eq]
  cases hw : d.window <;> cases ho : d.output <;>
    simp [WOutputViewportPrivate.outputWindow, WOutputViewportPrivate.updateImplicitSize, hw, ho]

/-- The last source list of two logs in a row is that of the second when it has
one, else that of the first. -/
theorem lastSourceList_append (a b : List Call) :
    lastSourceList (a ++ b) =
      match lastSourceList b with
      | some l => some l
      | none => lastSourceList a := by
  induction a with
  | nil => cases h : lastSourceList b <;> simp [lastSourceList, h]
  | cons c cs ih =>
    simp only [List.cons_append, lastSourceList, List.append_eq, ih]
    cases h : lastSourceList b <;> simp

/-- Every step other than the after-rendering slot keeps a set flag set, and a
step that hands a source list over does so with `forceInvalidate = true` and
leaves the flag set. -/
theorem step_forceRender (qtNoDebug : Bool) (d d1 : WOutputViewportPrivate) (op : Op)
    (calls : List Call) (h : step qtNoDebug d op = Except.ok (d1, calls)) :
    (op ≠ Op.afterRendering → d.forceRender = true → d1.forceRender = true) ∧
    (∀ l f, Call.setSourceList l f ∈ calls → f = true ∧ d1.forceRender = true) := by
  cases op with
  | setInput item =>
    simp only [step, setInput, updateRenderBufferSource_eq] at h
    split at h <;> [skip; split at h] <;> simp at h <;> obtain ⟨rfl, rfl⟩ := h <;> simp
  | resetInput =>
    simp only [step, resetInput, setInput, updateRenderBufferSource_eq] at h
    split at h <;> [skip; split at h] <;> simp at h <;> obtain ⟨rfl, rfl⟩ := h <;> simp
  | setExtraRenderSource source =>
    simp only [step, WOutputViewportPrivate.setExtraRenderSource,
      updateRenderBufferSource_eq] at h
    split at h <;> simp at h <;> obtain ⟨rfl, rfl⟩ := h <;> simp
  | setOutput newOutput =>
    obtain ⟨cc, w, i, e, o, r, off, p, l, f, lf⟩ := d
    cases qtNoDebug <;> cases cc <;> cases w <;> cases o <;> cases newOutput <;>
      simp [step, setOutput, initForOutput_eq] at h <;>
      obtain ⟨rfl, rfl⟩ := h <;> simp
  | setDevicePixelRatio r =>
    simp only [step, setDevicePixelRatio, WOutputViewportPrivate.updateImplicitSize] at h
    split at h <;> [skip; split at h] <;> simp at h <;> obtain ⟨rfl, rfl⟩ := h <;> simp
  | setOffscreen b =>
    simp only [step, setOffscreen] at h
    split at h <;> simp at h <;> obtain ⟨rfl, rfl⟩ := h <;> simp
  | setCacheBuffer b =>
    simp [step, setCacheBuffer] at h
    obtain ⟨rfl, rfl⟩ := h
    simp
  | setPreserveColorContents b =>
    simp only [step, setPreserveColorContents] at h
    split at h <;> simp at h <;> obtain ⟨rfl, rfl⟩ := h <;> simp
  | setLive b =>
    simp only [step, setLive] at h
    split at h <;> simp at h <;> obtain ⟨rfl, rfl⟩ := h <;> simp
  | setLayerFlags b =>
    simp only [step, setLayerFlags] at h
    split at h <;> simp at h <;> obtain ⟨rfl, rfl⟩ := h <;> simp
  | setOutputScale scale =>
    simp only [step, setOutputScale] at h
    split at h <;> simp at h <;> obtain ⟨rfl, rfl⟩ := h <;> simp
  | rotateOutput t =>
    simp only [step, rotateOutput] at h
    split at h <;> simp at h <;> obtain ⟨rfl, rfl⟩ := h <;> simp
  | render doCommit =>
    simp only [step, render] at h
    split at h <;> simp at h <;> obtain ⟨rfl, rfl⟩ := h <;> simp
  | componentComplete =>
    obtain ⟨cc, w, i, e, o, r, off, p, l, f, lf⟩ := d
    cases w <;> cases o <;>
      simp [step, componentComplete, initForOutput_eq] at h <;>
      obtain ⟨rfl, rfl⟩ := h <;> simp
  | releaseResources =>
    obtain ⟨cc, w, i, e, o, r, off, p, l, f, lf⟩ := d
    cases cc <;> cases w <;> cases o <;>
      simp [step, releaseResources, invalidate, WOutputViewportPrivate.outputWindow] at h <;>
      obtain ⟨rfl, rfl⟩ := h <;> simp
  | invalidate =>
    obtain ⟨cc, w, i, e, o, r, off, p, l, f, lf⟩ := d
    cases cc <;> cases w <;> cases o <;>
      simp [step, invalidate, WOutputViewportPrivate.outputWindow] at h <;>
      obtain ⟨rfl, rfl⟩ := h <;> simp
  | itemChange c w b =>
    cases c <;> cases w <;> cases b <;>
      simp [step, itemChange] at h <;>
      obtain ⟨rfl, rfl⟩ := h <;> simp
  | modeChanged =>
    simp [step, modeChanged, WOutputViewportPrivate.updateImplicitSize] at h
    obtain ⟨rfl, rfl⟩ := h
    simp
  | afterRendering =>
    simp [step, afterRendering] at h
    obtain ⟨rfl, rfl⟩ := h
    simp

/-- A run without the after-rendering slot keeps a set flag set. -/
theorem run_forceRender (qtNoDebug : Bool) (ops : List Op) :
    ∀ (d d1 : WOutputViewportPrivate) (calls : List Call),
      run qtNoDebug ops d = Except.ok (d1, calls) → Op.afterRendering ∉ ops →
      d.forceRender = true → d1.forceRender = true := by
  induction ops with
  | nil =>
    intro d d1 calls h _ hf
    simp [run] at h
    obtain ⟨rfl, _⟩ := h
    exact hf
  | cons op ops ih =>
    intro d d1 calls h hno hf
    simp only [List.mem_cons, not_or] at hno
    unfold run at h
    cases hs : step qtNoDebug d op with
    | error e => simp [hs] at h
    | ok r =>
      obtain ⟨d2, c2⟩ := r
      simp only [hs] at h
      cases hr : run qtNoDebug ops d2 with
      | error e => simp [hr] at h
      | ok r2 =>
        obtain ⟨d3, c3⟩ := r2
        simp only [hr, Except.ok.injEq, Prod.mk.injEq] at h
        obtain ⟨rfl, _⟩ := h
        exact ih d2 d3 c3 hr hno.2
          ((step_forceRender qtNoDebug d d2 op c2 hs).1 (Ne.symm hno.1) hf)

/-- C10: `updateRenderBufferSource` sets the force-render flag and hands the list
over with `forceInvalidate = true`; so do the three paths that reach it (`setInput`
with a new input while an output is bound, `setExtraRenderSource` with a new
source, attached-state setup); no step hands a list over otherwise; every step
other than the after-rendering slot, and every run without it, keeps a set flag
set; the after-rendering slot clears it. -/
theorem forceRender_set_by_rebuild (qtNoDebug : Bool) :
    (∀ d : WOutputViewportPrivate,
      d.updateRenderBufferSource.1.forceRender = true ∧
      d.updateRenderBufferSource.2
        = [Call.setSourceList (specSourceList d.input d.extraRenderSource) true]) ∧
    (∀ (d : WOutputViewportPrivate) (item : Option Nat),
      d.output.isSome = true → d.input ≠ item →
      (setInput d item).1.forceRender = true ∧
      (setInput d item).2
        = [Call.setSourceList (specSourceList item d.extraRenderSource) true,
           Call.inputChanged]) ∧
    (∀ (d : WOutputViewportPrivate) (source : Option Nat),
      d.extraRenderSource ≠ source →
      (d.setExtraRenderSource source).1.forceRender = true ∧
      (d.setExtraRenderSource source).2
        = [Call.setSourceList (specSourceList d.input source) true]) ∧
    (∀ (d d1 : WOutputViewportPrivate) (calls : List Call),
      d.initForOutput = Except.ok (d1, calls) →
      d1.forceRender = true ∧
      Call.setSourceList (specSourceList d.input d.extraRenderSource) true ∈ calls) ∧
    (∀ (d d1 : WOutputViewportPrivate) (op : Op) (calls : List Call),
      step qtNoDebug d op = Except.ok (d1, calls) →
      ∀ l f, Call.setSourceList l f ∈ calls → f = true ∧ d1.forceRender = true) ∧
    (∀ (d d1 : WOutputViewportPrivate) (op : Op) (calls : List Call),
      step qtNoDebug d op = Except.ok (d1, calls) → op ≠ Op.afterRendering →
      d.forceRender = true → d1.forceRender = true) ∧
    (∀ (ops : List Op) (d d1 : WOutputViewportPrivate) (calls : List Call),
      run qtNoDebug ops d = Except.ok (d1, calls) → Op.afterRendering ∉ ops →
      d.forceRender = true → d1.forceRender = true) ∧
    (∀ d : WOutputViewportPrivate,
      step qtNoDebug d Op.afterRendering = Except.ok ({ d with forceRender := false }, [])) := by
  refine ⟨?_, ?_, ?_, ?_, ?_, ?_, ?_, ?_⟩
  · intro d
    simp [updateRenderBufferSource_eq]
  · intro d item hb hne
    simp [setInput, hne, hb, updateRenderBufferSource_eq]
  · intro d source hne
    simp [WOutputViewportPrivate.setExtraRenderSource, hne, updateRenderBufferSource_eq]
  · intro d d1 calls h
    rw [initForOutput_eq] at h
    cases hw : d.window <;> cases ho : d.output <;> simp [hw, ho] at h
    obtain ⟨rfl, rfl⟩ := h
    simp
  · intro d d1 op calls h
    exact (step_forceRender qtNoDebug d d1 op calls h).2
  · intro d d1 op calls h
    exact (step_forceRender qtNoDebug d d1 op calls h).1
  · intro ops d d1 calls
    exact run_forceRender qtNoDebug ops d d1 calls
  · intro d
    rfl

/-- C10, on the sample viewport: a new extra source sets the flag, and a `render`
and a `setLive` after a rebuild leave it set. -/
theorem forceRender_set_by_rebuild_witness :
    (WOutputViewportPrivate.setExtraRenderSource sample (some 2)).1.forceRender = true ∧
    (WOutputViewportPrivate.setExtraRenderSource sample (some 2)).2
      = [Call.setSourceList (specSourceList sample.input (some 2)) true] ∧
    run true [Op.render true, Op.setLive false] { sample with forceRender := true }
      = Except.ok ({ sample with forceRender := true, live := false },
          [Call.windowRender 7 true, Call.liveChanged]) ∧
    ({ sample with forceRender := true, live := false } : WOutputViewportPrivate).forceRender
      = true :=
  ⟨((forceRender_set_by_rebuild true).2.2.1 sample (some 2) (by decide)).1,
   ((forceRender_set_by_rebuild true).2.2.1 sample (some 2) (by decide)).2,
   rfl,
   (forceRender_set_by_rebuild true).2.2.2.2.2.2.1 [Op.render true, Op.setLive false]
     { sample with forceRender := true } { sample with forceRender := true, live := false }
     [Call.windowRender 7 true, Call.liveChanged] rfl (by decide) rfl⟩

/-- One `setInput` or `setExtraRenderSource` on a viewport with a bound output
returns, keeps the output, and either hands over the list of the new input and
extra source or hands over nothing and leaves both as they were. -/
theorem sourceCall_step (qtNoDebug : Bool) (d : WOutputViewportPrivate) (op : Op)
    (hop : op.isSourceCall = true) (hb : d.output.isSome = true) :
    ∃ d1 c1, step qtNoDebug d op = Except.ok (d1, c1) ∧ d1.output = d.output ∧
      ((lastSourceList c1 = none ∧ d1.input = d.input ∧
          d1.extraRenderSource = d.extraRenderSource) ∨
        lastSourceList c1 = some (specSourceList d1.input d1.extraRenderSource)) := by
  cases op <;> simp [Op.isSourceCall] at hop
  case setInput item =>
    by_cases h : d.input = item
    · exact ⟨d, [], by simp [step, setInput, h], rfl, Or.inl ⟨rfl, rfl, rfl⟩⟩
    · have hs : step qtNoDebug d (Op.setInput item)
          = Except.ok ({ d with input := item, forceRender := true },
              [Call.setSourceList (specSourceList item d.extraRenderSource) true,
               Call.inputChanged]) := by
        simp [step, setInput, h, hb, updateRenderBufferSource_eq]
      exact ⟨_, _, hs, rfl, Or.inr (by simp [lastSourceList])⟩
  case setExtraRenderSource source =>
    by_cases h : d.extraRenderSource = source
    · exact ⟨d, [], by simp [step, WOutputViewportPrivate.setExtraRenderSource, h], rfl,
        Or.inl ⟨rfl, rfl, rfl⟩⟩
    · have hs : step qtNoDebug d (Op.setExtraRenderSource source)
          = Except.ok ({ d with extraRenderSource := source, forceRender := true },
              [Call.setSourceList (specSourceList d.input source) true]) := by
        simp [step, WOutputViewportPrivate.setExtraRenderSource, h,
          updateRenderBufferSource_eq]
      exact ⟨_, _, hs, rfl, Or.inr (by simp [lastSourceList])⟩

/-- A run of `setInput` and `setExtraRenderSource` calls on a viewport with a bound
output returns, and either its last handed list is that of the final input and
extra source or it handed over nothing and left both as they were. -/
theorem sourceCall_run (qtNoDebug : Bool) (ops : List Op) :
    ∀ d : WOutputViewportPrivate, (∀ op ∈ ops, op.isSourceCall = true) →
      d.output.isSome = true →
      ∃ d1 c1, run qtNoDebug ops d = Except.ok (d1, c1) ∧ d1.output = d.output ∧
        ((lastSourceList c1 = none ∧ d1.input = d.input ∧
            d1.extraRenderSource = d.extraRenderSource) ∨
          lastSourceList c1 = some (specSourceList d1.input d1.extraRenderSource)) := by
  induction ops with
  | nil =>
    intro d _ _
    exact ⟨d, [], rfl, rfl, Or.inl ⟨rfl, rfl, rfl⟩⟩
  | cons op ops ih =>
    intro d hops hb
    obtain ⟨d1, c1, hs, ho1, h1⟩ :=
      sourceCall_step qtNoDebug d op (hops op (List.mem_cons_self _ _)) hb
    obtain ⟨d2, c2, hr, ho2, h2⟩ :=
      ih d1 (fun o ho => hops o (List.mem_cons_of_mem _ ho)) (by rw [ho1]; exact hb)
    refine ⟨d2, c1 ++ c2, by simp [run, hs, hr], by rw [ho2, ho1], ?_⟩
    rw [lastSourceList_append]
    rcases h2 with ⟨hn, hi, he⟩ | hsome
    · rw [hn]
      rcases h1 with ⟨hn1, hi1, he1⟩ | hsome1
      · exact Or.inl ⟨hn1, by rw [hi, hi1], by rw [he, he1]⟩
      · exact Or.inr (by simp only [hsome1, hi, he])
    · exact Or.inr (by simp only [hsome])

/-- C2, as stated, fails while no output is bound: after `setExtraRenderSource` of
the item at 2 and `setInput` of the item at 1 the list last handed to the buffer
renderer is still the sentinel followed by 2, while the list of the current input
and extra source is 1 followed by 2. -/
theorem unbound_setInput_leaves_stale_list :
    run true [Op.setExtraRenderSource (some 2), Op.setInput (some 1)] sample
      = Except.ok ({ sample with input := some 1, extraRenderSource := some 2,
                                 forceRender := true },
          [Call.setSourceList [none, some 2] true, Call.inputChanged]) ∧
    lastSourceList [Call.setSourceList [none, some 2] true, Call.inputChanged]
      = some [none, some 2] ∧
    specSourceList (some 1) (some 2) = [some 1, some 2] := by
  refine ⟨rfl, rfl, rfl⟩

/-- C2, amended: on a viewport with a bound output whose last handed list is that
of its input and extra source, every sequence of `setInput` and
`setExtraRenderSource` calls returns and leaves the list last handed to the buffer
renderer equal to the input (or the null sentinel) followed by the extra source
exactly when it is set, for the input and extra source then current. Attached-state
setup hands that list over; `setInput` with a new reference while no output is
bound stores it and emits `inputChanged` without handing any list over. -/
theorem sourceList_in_sync_while_bound (qtNoDebug : Bool) (d : WOutputViewportPrivate)
    (log0 : List Call) (ops : List Op) (hops : ∀ op ∈ ops, op.isSourceCall = true)
    (hb : d.output.isSome = true)
    (hsync : lastSourceList log0 = some (specSourceList d.input d.extraRenderSource)) :
    (∃ d1 c1, run qtNoDebug ops d = Except.ok (d1, c1) ∧
      lastSourceList (log0 ++ c1)
        = some (specSourceList d1.input d1.extraRenderSource)) ∧
    (∀ (d0 d1 : WOutputViewportPrivate) (calls : List Call),
      d0.initForOutput = Except.ok (d1, calls) →
      lastSourceList calls = some (specSourceList d1.input d1.extraRenderSource)) ∧
    (∀ (d0 : WOutputViewportPrivate) (item : Option Nat),
      d0.output = none → d0.input ≠ item →
      setInput d0 item = ({ d0 with input := item }, [Call.inputChanged])) := by
  refine ⟨?_, ?_, ?_⟩
  · obtain ⟨d1, c1, hr, _, h⟩ := sourceCall_run qtNoDebug ops d hops hb
    refine ⟨d1, c1, hr, ?_⟩
    rw [lastSourceList_append]
    rcases h with ⟨hn, hi, he⟩ | hsome
    · rw [hn, hi, he]
      exact hsync
    · rw [hsome]
  · intro d0 d1 calls h
    rw [initForOutput_eq] at h
    cases hw : d0.window <;> cases ho : d0.output <;> simp [hw, ho] at h
    obtain ⟨rfl, rfl⟩ := h
    simp [lastSourceList]
  · intro d0 item ho hne
    simp [setInput, hne, ho]

/-- C2 amended, on the viewport attached to the output at 1 by `setOutput`: after
`setExtraRenderSource` of 2, `setInput` of 1 and `setInput` of 1 again, the list
last handed over is 1 followed by 2. -/
theorem sourceList_in_sync_while_bound_witness :
    setOutput true sample (some 1)
      = Except.ok ({ sample with output := some 1, forceRender := true },
          [Call.setSourceList [none] true, Call.bufferRendererSetOutput (some 1),
           Call.attach 7, Call.safeConnectModeChanged 1, Call.implicitWidthChanged,
           Call.implicitHeightChanged, Call.resetWidth, Call.resetHeight,
           Call.outputChanged]) ∧
    run true [Op.setExtraRenderSource (some 2), Op.setInput (some 1), Op.setInput (some 1)]
        { sample with output := some 1, forceRender := true }
      = Except.ok ({ sample with output := some 1, forceRender := true, input := some 1,
                                 extraRenderSource := some 2 },
          [Call.setSourceList [none, some 2] true,
           Call.setSourceList [some 1, some 2] true, Call.inputChanged]) ∧
    lastSourceList
        ([Call.setSourceList [none] true, Call.bufferRendererSetOutput (some 1),
          Call.attach 7, Call.safeConnectModeChanged 1, Call.implicitWidthChanged,
          Call.implicitHeightChanged, Call.resetWidth, Call.resetHeight,
          Call.outputChanged] ++
         [Call.setSourceList [none, some 2] true,
          Call.setSourceList [some 1, some 2] true, Call.inputChanged])
      = some [some 1, some 2] := by
  obtain ⟨d1, c1, hr, hl⟩ :=
    (sourceList_in_sync_while_bound true { sample with output := some 1, forceRender := true }
      [Call.setSourceList [none] true, Call.bufferRendererSetOutput (some 1),
       Call.attach 7, Call.safeConnectModeChanged 1, Call.implicitWidthChanged,
       Call.implicitHeightChanged, Call.resetWidth, Call.resetHeight, Call.outputChanged]
      [Op.setExtraRenderSource (some 2), Op.setInput (some 1), Op.setInput (some 1)]
      (by decide) rfl rfl).1
  have hrun : run true
      [Op.setExtraRenderSource (some 2), Op.setInput (some 1), Op.setInput (some 1)]
      { sample with output := some 1, forceRender := true }
      = Except.ok ({ sample with output := some 1, forceRender := true, input := some 1,
                                 extraRenderSource := some 2 },
          [Call.setSourceList [none, some 2] true,
           Call.setSourceList [some 1, some 2] true, Call.inputChanged]) := rfl
  rw [hrun] at hr
  simp only [Except.ok.injEq, Prod.mk.injEq] at hr
  obtain ⟨rfl, rfl⟩ := hr
  exact ⟨rfl, hrun, hl⟩

/-! ## Output viewport: attach and detach -/

/-- C3 fails on the code: on a completed viewport in a render window,
`setOutput` of an output, `setOutput(nullptr)` and `setOutput` of another output
all return, and the render window receives `attach` twice with no `detach` in
between, in builds with and without assertions; `setOutput(nullptr)` clears the
bound output and emits `outputChanged` only. With `invalidate` in place of
`setOutput(nullptr)` the calls are `attach`, `detach`, `attach`. -/
theorem setOutput_null_rebind_attaches_twice :
    (run true [Op.setOutput (some 1), Op.setOutput none, Op.setOutput (some 2)] sample).map
        (fun r => (r.1.output, attachDetach r.2, bracketed r.2))
      = Except.ok (some 2, [true, true], false) ∧
    (run false [Op.setOutput (some 1), Op.setOutput none, Op.setOutput (some 2)] sample).map
        (fun r => (r.1.output, attachDetach r.2, bracketed r.2))
      = Except.ok (some 2, [true, true], false) ∧
    setOutput false { sample with output := some 1, forceRender := true } none
      = Except.ok ({ sample with forceRender := true }, [Call.outputChanged]) ∧
    invalidate { sample with output := some 1, forceRender := true }
      = Except.ok ({ sample with forceRender := true }, [Call.detach 7]) ∧
    (run false [Op.setOutput (some 1), Op.invalidate, Op.setOutput (some 2)] sample).map
        (fun r => (r.1.output, attachDetach r.2, bracketed r.2))
      = Except.ok (some 2, [true, false, true], true) := by
  refine ⟨rfl, rfl, rfl, rfl, rfl⟩

end Waylib
